import Mathlib

/-!
# Shallow embedding of the PySEAL `sealed` layer

This file embeds the Python modules `sealed/models.py`, `sealed/encode.py` and
`sealed/utils.py` of the PySEAL repository and proves, or refutes, the frozen
claims about them.

Modelling conventions:
* Python `int` is `ℤ`; Python `float` values are carried as `ℚ` (the claims
  only need the float *category* and the literal `0.0`, never float rounding).
* Engine (SEAL C++) primitives are opaque: an encoded plaintext is modelled by
  an injective constructor recording which encoder produced it from which
  value; a ciphertext is an expression tree over the homomorphic primitives.
* A Python function that can raise is an `Except PyErr`; returning
  `NotImplemented` from a binary dunder makes Python raise `TypeError` once
  the reflected operation fails too, which is the case for every operation
  modelled here (`CipherText` defines `__radd__`/`__rmul__` as the same code,
  and plain `int`/`float`/`ndarray` operands do not handle `CipherText`), so
  `NotImplemented` is modelled directly as `.error .typeError`.
-/

/-- Python exception categories observable in the embedded code. -/
inductive PyErr where
  | typeError
  | valueError
  | attributeError
  | assertionError
  | runtimeError (msg : String)
  | otherExn (tag : ℕ)
deriving DecidableEq, Repr

/-- The fields through which `sealed.primitives.SEALContext.__eq__` compares
two contexts: `poly_modulus().coeff_count()` (recorded here as the polynomial
modulus degree, `coeff_count = degree + 1`), the significant bit count of
`total_coeff_modulus()`, and `plain_modulus().value()`.
`poly_mod_deg()` returns `polyModDeg`. -/
structure CtxDesc where
  polyModDeg : ℕ
  coeffModBits : ℕ
  plainMod : ℕ
deriving DecidableEq, Repr

/-- Encoder state, one constructor per concrete `Encoder` subclass of
`sealed/encode.py`, holding exactly the `_ATTRIBUTES` used by
`Encoder.__eq__`: the context plus, for `IntEncoder`, `_base` and
`_unsigned`; for `FloatEncoder`, `_integral`, `_fractional`, `_base`; for
`IntMatrixEncoder`, `_rows` and `_cols`.  Structural equality of this type is
exactly `Encoder.__eq__` (same class and all listed attributes equal). -/
inductive Encoder where
  | intE (ctx : CtxDesc) (base : ℤ) (unsigned : Bool)
  | floatE (ctx : CtxDesc) (integral fractional : ℤ) (base : ℤ)
  | matE (ctx : CtxDesc) (rows cols : ℤ)
deriving DecidableEq, Repr

/-- Python values that reach the encoding layer.  A two-dimensional numpy
array is recorded by its shape list, a flag for an integer dtype, and its
row-major entries. -/
inductive PyVal where
  | pyInt (n : ℤ)
  | pyFloat (q : ℚ)
  | pyMat (shape : List ℕ) (intDtype : Bool) (entries : List ℤ)
deriving DecidableEq, Repr

/-- An encoded SEAL `Plaintext`.  The engine encoders are opaque; each
constructor records injectively which encoding primitive ran on which data:
`IntegerEncoder.encode`, `FractionalEncoder.encode`, and
`PolyCRTBuilder.compose` on the flattened matrix. -/
inductive PlainM where
  | intPoly (base : ℤ) (n : ℤ)
  | fracPoly (integral fractional base : ℤ) (q : ℚ)
  | slots (entries : List ℤ)
deriving DecidableEq, Repr

/-- `IntEncoder.encode`: raise `TypeError` unless the value is an `int`;
in unsigned mode additionally reject negative values. -/
def intEncode (base : ℤ) (unsigned : Bool) (v : PyVal) : Except PyErr PlainM :=
  match v with
  | .pyInt n =>
      if unsigned && decide (n < 0) then .error .typeError
      else .ok (.intPoly base n)
  | _ => .error .typeError

/-- `FloatEncoder.encode`: raise `TypeError` unless the value is a `float`. -/
def floatEncode (integral fractional base : ℤ) (v : PyVal) : Except PyErr PlainM :=
  match v with
  | .pyFloat q => .ok (.fracPoly integral fractional base q)
  | _ => .error .typeError

/-- `IntMatrixEncoder.encode` as a state transformer on the `(_rows, _cols)`
pair.  Mirrors the source exactly: a 2-d integer array with both locked
dimensions non-positive triggers shape inference (the mutation happens
*before* the `rows * cols == poly_mod_deg` check, so a failing first encode
still locks the shape); afterwards the input shape must equal the locked one;
every other input raises `TypeError` and leaves the state unchanged. -/
def matEncodeSt (ctx : CtxDesc) (rows cols : ℤ) (v : PyVal) :
    Except PyErr PlainM × (ℤ × ℤ) :=
  match v with
  | .pyMat shape intDtype entries =>
      if shape.length = 2 ∧ intDtype then
        let r : ℤ := shape[0]!
        let c : ℤ := shape[1]!
        if rows ≤ 0 ∧ cols ≤ 0 then
          -- lazy shape inference: self._rows, self._cols = plain.shape
          if r * c = (ctx.polyModDeg : ℤ) then
            -- shape check against the freshly locked shape always passes
            (.ok (.slots entries), (r, c))
          else
            (.error .typeError, (r, c))
        else
          if r = rows ∧ c = cols then (.ok (.slots entries), (rows, cols))
          else (.error .typeError, (rows, cols))
      else (.error .typeError, (rows, cols))
  | _ => (.error .typeError, (rows, cols))

/-- `Encoder.encode` dispatched on the encoder class, as a state transformer:
the matrix encoder may lock its shape as a side effect, the other encoders
never change. -/
def encoderEncode (e : Encoder) (v : PyVal) : Except PyErr PlainM × Encoder :=
  match e with
  | .intE _ctx base unsigned => (intEncode base unsigned v, e)
  | .floatE _ctx integral fractional base => (floatEncode integral fractional base v, e)
  | .matE ctx rows cols =>
      let (res, st) := matEncodeSt ctx rows cols v
      (res, .matE ctx st.1 st.2)

/-- `Encoder.can_encode`: attempt `encode` and report whether it raised
`TypeError` (every failure of the embedded encoders is a `TypeError`). -/
def canEncode (e : Encoder) (v : PyVal) : Bool :=
  (encoderEncode e v).1.isOk

/-- Ciphertext expression: an opaque SEAL `Ciphertext` described by the
history of engine primitives that produced it (`Encryptor.encrypt`,
`Evaluator.add/add_plain/negate/multiply/multiply_plain/relinearize`). -/
inductive CExpr where
  | fresh (p : PlainM)
  | addCC (a b : CExpr)
  | addP (a : CExpr) (p : PlainM)
  | negC (a : CExpr)
  | mulCC (a b : CExpr)
  | mulP (a : CExpr) (p : PlainM)
deriving DecidableEq, Repr

/-- `sealed.models.CipherText`: the SEAL ciphertext plus the encoder it was
produced with (the context rides inside the encoder's `ctx` field and is not
consulted by the embedded operations). -/
structure CipherTextM where
  expr : CExpr
  enc : Encoder
deriving DecidableEq, Repr

/-- The right-hand operand of a binary `CipherText` operation: another
`CipherText` or a plain Python value. -/
inductive Operand where
  | cipher (c : CipherTextM)
  | plain (v : PyVal)
deriving DecidableEq, Repr

/-- `isinstance(other, CipherText) and self._encoder == other._encoder`. -/
def encMatches (a : CipherTextM) (b : Operand) : Bool :=
  match b with
  | .cipher o => a.enc = o.enc
  | .plain _ => false

/-- `can_encode` applied to the raw operand: a `CipherText` operand is not an
`int`, `float` or `ndarray`, so every encoder's `encode` raises `TypeError`
on it and `can_encode` is false. -/
def canEncodeOp (e : Encoder) (b : Operand) : Bool :=
  match b with
  | .cipher _ => false
  | .plain v => canEncode e v

/-- `CipherText.__add__` (and `__radd__`, which delegates to it): ciphertext
addition when the operand is a `CipherText` with an equal encoder, plaintext
addition when the operand is encodable, otherwise `NotImplemented`, which
Python turns into `TypeError`. -/
def cipherAdd (a : CipherTextM) (b : Operand) : Except PyErr CipherTextM :=
  if encMatches a b then
    match b with
    | .cipher o => .ok ⟨.addCC a.expr o.expr, a.enc⟩
    | .plain _ => .error .typeError
  else if canEncodeOp a.enc b then
    match b with
    | .plain v =>
        match encoderEncode a.enc v with
        | (.ok p, e') => .ok ⟨.addP a.expr p, e'⟩
        | (.error err, _) => .error err
    | .cipher _ => .error .typeError
  else .error .typeError

/-- `CipherText.__neg__`: always defined, keeps the encoder. -/
def cipherNeg (a : CipherTextM) : CipherTextM :=
  ⟨.negC a.expr, a.enc⟩

/-- `CipherText.__sub__`: `other + (-self)` when the operand is a
`CipherText` with an equal encoder, otherwise `NotImplemented` → `TypeError`
(there is no plaintext branch and no `__rsub__`). -/
def cipherSub (a : CipherTextM) (b : Operand) : Except PyErr CipherTextM :=
  match b with
  | .cipher o =>
      if a.enc = o.enc then cipherAdd o (.cipher (cipherNeg a))
      else .error .typeError
  | .plain _ => .error .typeError

/-- CPython identity test `other is 0`: ints in `[-5, 256]` are interned, so
for the `int` operands reaching this check identity with the literal `0`
coincides with value equality; a non-int operand is never the same object as
an `int` literal. -/
def isLiteralIntZero (v : PyVal) : Bool :=
  match v with
  | .pyInt n => n = 0
  | _ => false

/-- CPython identity test `other is 0.0`: floats are not interned, and a
float object supplied by a caller is a distinct object from the `0.0`
constant compiled into `sealed/models.py` (constants live per code object),
so this test is false for every operand value. -/
def isLiteralFloatZero (_v : PyVal) : Bool :=
  false

/-- `CipherText.__mul__` (and `__rmul__`): ciphertext multiplication for an
equal-encoder `CipherText` operand; otherwise plaintext multiplication when
`self._encoder.can_encode(other) and other is not 0 and other is not 0.0`;
otherwise `NotImplemented` → `TypeError`. -/
def cipherMul (a : CipherTextM) (b : Operand) : Except PyErr CipherTextM :=
  if encMatches a b then
    match b with
    | .cipher o => .ok ⟨.mulCC a.expr o.expr, a.enc⟩
    | .plain _ => .error .typeError
  else if canEncodeOp a.enc b
      && !(match b with | .plain v => isLiteralIntZero v | .cipher _ => false)
      && !(match b with | .plain v => isLiteralFloatZero v | .cipher _ => false) then
    match b with
    | .plain v =>
        match encoderEncode a.enc v with
        | (.ok p, e') => .ok ⟨.mulP a.expr p, e'⟩
        | (.error err, _) => .error err
    | .cipher _ => .error .typeError
  else .error .typeError

/-- `CipherText._square`: `self * self`. -/
def cipherSquare (a : CipherTextM) : Except PyErr CipherTextM :=
  cipherMul a (.cipher a)

/-- `CipherText.__pow__` on an integer exponent.  Every recursive `**` in the
source re-enters `__pow__`, re-checking `power >= 1`, which the embedding
mirrors; `NotImplemented` is `TypeError` as before. -/
def cipherPow (a : CipherTextM) (p : ℤ) : Except PyErr CipherTextM :=
  if p < 1 then .error .typeError
  else if p = 1 then .ok a
  else if p % 2 = 0 then
    (cipherSquare a).bind fun sq => cipherPow sq (p / 2)
  else
    (cipherSquare a).bind fun sq =>
      (cipherPow sq ((p - 1) / 2)).bind fun r => cipherMul a (.cipher r)
termination_by p.toNat
decreasing_by
  all_goals omega

/-- `CipherText.__pow__` on an arbitrary Python value:
`isinstance(power, int)` gates the integer recursion; any other exponent is
`NotImplemented` → `TypeError`. -/
def cipherPowPy (a : CipherTextM) (p : PyVal) : Except PyErr CipherTextM :=
  match p with
  | .pyInt n => cipherPow a n
  | _ => .error .typeError

/-! ## Batched rotation (`CipherText.roll`)

SEAL batching views the plaintext slots of a batched ciphertext as a
2 × (degree/2) matrix.  The engine rotation primitives act on that slot
matrix: `rotate_rows steps` cyclically rotates each of the two rows by
`steps` slots, `rotate_columns` swaps the two rows.  `roll` is embedded as
its action on the slot state, which is what decryption observes. -/

/-- Slot state of a batched ciphertext: `Bool` indexes the two slot rows,
`ZMod m` the slot column (`m = degree/2`). -/
def BState (m : ℕ) : Type := Bool → ZMod m → ℤ

/-- Engine `Evaluator.rotate_rows steps`: cyclically rotate each slot row
left by `steps` slots. -/
def rotateRows (m : ℕ) (steps : ℤ) (σ : BState m) : BState m :=
  fun r j => σ r (j + steps)

/-- Engine `Evaluator.rotate_columns`: swap the two slot rows (the shift
value is not an argument of this primitive). -/
def rotateColumns (m : ℕ) (σ : BState m) : BState m :=
  fun r j => σ (!r) j

/-- `CipherText.roll` with an integer shift.  The entry assertion requires
`axis` ∈ {0, 1}; on axis 0 a shift outside {-1, 0, 1} raises `TypeError` and
an accepted shift is *not passed on*: the code calls `rotate_columns` with no
shift argument; on axis 1 the code calls `rotate_rows(-shift)` (the sign flip
converts the engine's leftward convention to numpy's `roll`). -/
def rollInt (m : ℕ) (σ : BState m) (shift : ℤ) (axis : ℤ) :
    Except PyErr (BState m) :=
  if ¬(0 ≤ axis ∧ axis ≤ 1) then .error .assertionError
  else if axis = 0 then
    if shift = -1 ∨ shift = 0 ∨ shift = 1 then .ok (rotateColumns m σ)
    else .error .typeError
  else .ok (rotateRows m (-shift) σ)

/-- `CipherText.roll` with a tuple shift: a zero component skips its axis,
otherwise the axis-0 roll runs first and the axis-1 roll second. -/
def rollPair (m : ℕ) (σ : BState m) (s : ℤ × ℤ) : Except PyErr (BState m) :=
  if s.1 = 0 then rollInt m σ s.2 1
  else if s.2 = 0 then rollInt m σ s.1 0
  else (rollInt m σ s.1 0).bind fun τ => rollInt m τ s.2 1

/-! ## Encoder construction and the scheme facade -/

/-- The batching precondition checked by `IntMatrixEncoder.__init__`:
`isprime(t) and t % (2 * n) == 1` for `t` the plaintext modulus and `n` the
polynomial modulus degree. -/
def batchingOk (ctx : CtxDesc) : Bool :=
  decide (Nat.Prime ctx.plainMod) && decide (ctx.plainMod % (2 * ctx.polyModDeg) = 1)

/-- `IntMatrixEncoder.__init__`.  Mirrors the source faithfully, including
its slip: the explicit-shape branch checks
`rows * cols == self._context.poly_mod_deg()`, but `self._context` is only
assigned a few lines further down, so the attribute lookup raises
`AttributeError` whenever `rows > 0 and cols > 0` — the intended shape
comparison never runs. -/
def intMatrixEncoderInit (ctx : CtxDesc) (rows cols : ℤ) : Except PyErr Encoder :=
  if ¬(batchingOk ctx) then .error .typeError
  else if 0 < rows ∧ 0 < cols then .error .attributeError
  else .ok (.matE ctx rows cols)

/-- `sealed.utils.is_pow_of_two`: `(num & (num - 1)) == 0 and num != 0`,
with Python's two's-complement `&` on arbitrary-precision ints (the
`isinstance(num, int)` conjunct is true for every `ℤ` argument). -/
def is_pow_of_two (num : ℤ) : Bool :=
  (Int.land num (num - 1) == 0) && (num != 0)

/-- The coefficient modulus selected by `CipherScheme.__init__`: the SEAL
recommendation table for the security level applied to the degree (when
`coeff_mod <= 0`), or an explicit `SmallModulus`. -/
inductive CoeffModChoice where
  | recommended (security : ℤ) (degree : ℤ)
  | explicitMod (value : ℤ)
deriving DecidableEq, Repr

/-- The parameter set a successful `CipherScheme.__init__` hands to the
engine (`set_poly_modulus`, `set_coeff_modulus`, `set_plain_modulus`). -/
structure SchemeParams where
  polyModDeg : ℤ
  coeffMod : CoeffModChoice
  plainMod : ℤ
  security : ℤ
deriving DecidableEq, Repr

/-- `CipherScheme.__init__` with the source's parameter order
`(poly_mod_deg, plain_mod, coeff_mod, security)`.  The `try` block turns any
`AssertionError` into a `ValueError`; the asserts are, in order:
`security in (128, 192)`, `is_pow_of_two(poly_mod_deg)`,
`isinstance(coeff_mod, int)` and `isinstance(plain_mod, int)` (both true for
every `ℤ` argument — there is no positivity check on `plain_mod`).  The
engine calls themselves are opaque and modelled as succeeding. -/
def cipherSchemeInit (polyModDeg plainMod coeffMod security : ℤ) :
    Except PyErr SchemeParams :=
  if ¬(security = 128 ∨ security = 192) then .error .valueError
  else if ¬(is_pow_of_two polyModDeg) then .error .valueError
  else
    .ok { polyModDeg := polyModDeg
        , coeffMod := if coeffMod ≤ 0 then .recommended security polyModDeg
                      else .explicitMod coeffMod
        , plainMod := plainMod
        , security := security }

/-- Engine bounds on the decomposition bit count, `dbc_min()` and
`dbc_max()`: 1 and 60 (quoted in the `generate_keys` docstring). -/
def dbcMin : ℤ := 1

/-- See `dbcMin`. -/
def dbcMax : ℤ := 60

/-- The tuple returned by `generate_keys`.  Key material is engine-generated,
fresh and opaque, so only its presence is modelled: public, secret and
evaluation keys are always present, Galois (rotation) keys may be `none`. -/
structure KeyBundle where
  pk : Unit
  sk : Unit
  ek : Unit
  gk : Option Unit
deriving DecidableEq, Repr

/-- The exact message `generate_keys` compares against. -/
def batchingMsg : String := "encryption parameters are not valid for batching"

/-- `CipherScheme.generate_keys`, parameterised by the outcome the engine's
`generate_galois_keys` would have (`.ok ()` or a raised exception): after the
two asserts (raised as plain `AssertionError`s, there is no `try` here) the
public, secret and evaluation keys are produced; a `RuntimeError` whose
message is exactly `batchingMsg` degrades to `gk = none`; every other
exception (a `RuntimeError` with a different message, or any non-`RuntimeError`,
which the `except RuntimeError` clause does not catch) propagates. -/
def generateKeys (dbc evalKeys : ℤ) (galoisOutcome : Except PyErr Unit) :
    Except PyErr KeyBundle :=
  if ¬(dbcMin ≤ dbc ∧ dbc ≤ dbcMax) then .error .assertionError
  else if ¬(0 < evalKeys) then .error .assertionError
  else
    match galoisOutcome with
    | .ok _ => .ok ⟨(), (), (), some ()⟩
    | .error (.runtimeError msg) =>
        if msg ≠ batchingMsg then .error (.runtimeError msg)
        else .ok ⟨(), (), (), none⟩
    | .error e => .error e

/-! ## Fixtures used by witnesses and counterexamples -/

/-- A sample context: degree 2048, plaintext modulus 256 (the spec's concrete
scenario parameters). -/
def ctx0 : CtxDesc := ⟨2048, 56, 256⟩

/-- A batching-compatible sample context: degree 4, plaintext modulus 17
(17 is prime and 17 % (2·4) = 1). -/
def ctxBatch : CtxDesc := ⟨4, 30, 17⟩

/-- A fresh base-2 integer ciphertext. -/
def cA : CipherTextM := ⟨.fresh (.intPoly 2 1), .intE ctx0 2 false⟩

/-- A fresh base-3 integer ciphertext (the spec's scenario 4 pairs it with
`cA` to exercise the encoder gate). -/
def cB : CipherTextM := ⟨.fresh (.intPoly 3 1), .intE ctx0 3 false⟩

/-- A fresh fractional ciphertext (float encoder with the default budgets
`int(0.4 * 2048) = 819`). -/
def cF : CipherTextM := ⟨.fresh (.fracPoly 819 819 2 1), .floatE ctx0 819 819 2⟩

/-- A sample batched slot state whose two rows differ. -/
def sampleState : BState 4 := fun r _ => if r then 1 else 0

/-- Squaring a ciphertext always takes the ciphertext-ciphertext multiply
branch, because an encoder equals itself. -/
lemma cipherSquare_eq (a : CipherTextM) :
    cipherSquare a = .ok ⟨.mulCC a.expr a.expr, a.enc⟩ := by
  simp [cipherSquare, cipherMul, encMatches]

/-! ## Claims -/

/-- C1: `CipherText.__pow__` follows the square-and-multiply recursion.
Exponent 1 returns the ciphertext itself, performing no multiplication;
`square(a)` is `multiply(a, a)` (the ciphertext-ciphertext primitive, since
an encoder equals itself); an even exponent `p ≥ 2` returns
`square(a) ** (p / 2)`; an odd exponent `p > 1` returns
`a * (square(a) ** ((p - 1) / 2))`; a zero, negative or non-integer exponent
is rejected with a `TypeError`. -/
theorem pow_recursion_spec (a : CipherTextM) (p : PyVal) :
    (p = .pyInt 1 → cipherPowPy a p = .ok a) ∧
    (cipherSquare a = .ok ⟨.mulCC a.expr a.expr, a.enc⟩) ∧
    (∀ n : ℤ, p = .pyInt n → 2 ≤ n → n % 2 = 0 →
      cipherPowPy a p = cipherPow ⟨.mulCC a.expr a.expr, a.enc⟩ (n / 2)) ∧
    (∀ n : ℤ, p = .pyInt n → 2 ≤ n → n % 2 = 1 →
      cipherPowPy a p = (cipherPow ⟨.mulCC a.expr a.expr, a.enc⟩ ((n - 1) / 2)).bind
        (fun r => cipherMul a (.cipher r))) ∧
    (∀ n : ℤ, p = .pyInt n → n ≤ 0 → cipherPowPy a p = .error .typeError) ∧
    (∀ q : ℚ, p = .pyFloat q → cipherPowPy a p = .error .typeError) ∧
    (∀ sh dt es, p = .pyMat sh dt es → cipherPowPy a p = .error .typeError) := by
  refine ⟨?_, cipherSquare_eq a, ?_, ?_, ?_, ?_, ?_⟩
  · rintro rfl
    simp only [cipherPowPy]
    rw [cipherPow]
    norm_num
  · rintro n rfl h2 he
    simp only [cipherPowPy]
    rw [cipherPow, if_neg (by omega), if_neg (by omega), if_pos he, cipherSquare_eq]
    rfl
  · rintro n rfl h2 ho
    simp only [cipherPowPy]
    rw [cipherPow, if_neg (by omega), if_neg (by omega), if_neg (by omega), cipherSquare_eq]
    rfl
  · rintro n rfl hn
    simp only [cipherPowPy]
    rw [cipherPow, if_pos (by omega)]
  · rintro q rfl
    rfl
  · rintro sh dt es rfl
    rfl

/-- Witness for C1 at concrete inputs: exponent 1 is the identity and
exponent 4 reduces to `square ** 2`. -/
theorem pow_recursion_spec_witness :
    cipherPowPy cA (.pyInt 1) = .ok cA ∧
    cipherPowPy cA (.pyInt 4) = cipherPow ⟨.mulCC cA.expr cA.expr, cA.enc⟩ 2 :=
  ⟨(pow_recursion_spec cA (.pyInt 1)).1 rfl,
   (pow_recursion_spec cA (.pyInt 4)).2.2.1 4 rfl (by decide) (by decide)⟩

/-- C2: `add`, `subtract` and `multiply` on two ciphertexts raise `TypeError`
when the operands' encoders differ (different class or different descriptor
fields), and all three are permitted — delegating to the ciphertext-ciphertext
engine primitives — when the encoders are equal. -/
theorem binary_op_encoder_gate (a b : CipherTextM) :
    (a.enc ≠ b.enc →
      cipherAdd a (.cipher b) = .error .typeError ∧
      cipherSub a (.cipher b) = .error .typeError ∧
      cipherMul a (.cipher b) = .error .typeError) ∧
    (a.enc = b.enc →
      cipherAdd a (.cipher b) = .ok ⟨.addCC a.expr b.expr, a.enc⟩ ∧
      cipherSub a (.cipher b) = .ok ⟨.addCC b.expr (.negC a.expr), b.enc⟩ ∧
      cipherMul a (.cipher b) = .ok ⟨.mulCC a.expr b.expr, a.enc⟩) := by
  constructor
  · intro h
    refine ⟨?_, ?_, ?_⟩ <;>
      simp [cipherAdd, cipherSub, cipherMul, encMatches, canEncodeOp, h]
  · intro h
    refine ⟨?_, ?_, ?_⟩ <;>
      simp [cipherAdd, cipherSub, cipherMul, cipherNeg, encMatches, canEncodeOp, h]

/-- Witness for C2: base-2 and base-3 integer ciphertexts are rejected on
add; equal-encoder ciphertexts multiply. -/
theorem binary_op_encoder_gate_witness :
    cipherAdd cA (.cipher cB) = .error .typeError ∧
    cipherMul cA (.cipher cA) = .ok ⟨.mulCC cA.expr cA.expr, cA.enc⟩ :=
  ⟨((binary_op_encoder_gate cA cB).1 (by decide)).1,
   ((binary_op_encoder_gate cA cA).2 rfl).2.2⟩

/-- C3 counterexample: `cA`'s integer encoder can encode the plaintext `5`
(addition with it succeeds), yet `cA - 5` raises `TypeError`: `__sub__` has
no plaintext branch, so a ciphertext-plaintext subtraction never succeeds. -/
theorem sub_plain_rejected_counterexample :
    canEncode cA.enc (.pyInt 5) = true ∧
    cipherAdd cA (.plain (.pyInt 5)) = .ok ⟨.addP cA.expr (.intPoly 2 5), cA.enc⟩ ∧
    cipherSub cA (.plain (.pyInt 5)) = .error .typeError :=
  ⟨rfl, rfl, rfl⟩

/-- C3 amended: `subtract(a, b)` equals `add(b, negate(a))` for ciphertext
operands with equal encoders; a ciphertext operand with a different encoder
and any plaintext operand, encodable or not, are rejected with `TypeError`
(subtraction is stricter than addition: it has no plaintext path). -/
theorem sub_is_add_of_negation (a b : CipherTextM) (v : PyVal) :
    (a.enc = b.enc → cipherSub a (.cipher b) = cipherAdd b (.cipher (cipherNeg a))) ∧
    (a.enc ≠ b.enc → cipherSub a (.cipher b) = .error .typeError) ∧
    cipherSub a (.plain v) = .error .typeError := by
  refine ⟨fun h => ?_, fun h => ?_, rfl⟩
  · simp [cipherSub, h]
  · simp [cipherSub, h]

/-- Witness for C3 at concrete inputs: equal-encoder subtraction is
`add(b, negate(a))`. -/
theorem sub_is_add_of_negation_witness :
    cipherSub cA (.cipher cA) = cipherAdd cA (.cipher (cipherNeg cA)) :=
  (sub_is_add_of_negation cA cA (.pyInt 5)).1 rfl

/-- C4: a tuple roll decomposes into the axis-0 roll followed by the axis-1
roll, a zero component skipping its axis, and `roll (0, 0)` is the identity
on the slot state (so it decrypts to the unrotated matrix). -/
theorem roll_pair_decomposes (m : ℕ) (σ : BState m) (r c : ℤ) :
    (r ≠ 0 → c ≠ 0 →
      rollPair m σ (r, c) = (rollInt m σ r 0).bind fun τ => rollInt m τ c 1) ∧
    (r = 0 → rollPair m σ (r, c) = rollInt m σ c 1) ∧
    (r ≠ 0 → c = 0 → rollPair m σ (r, c) = rollInt m σ r 0) ∧
    rollPair m σ (0, 0) = .ok σ := by
  have hid : rotateRows m (0 : ℤ) σ = σ := by
    funext a j
    simp [rotateRows]
  refine ⟨fun hr hc => ?_, fun hr => ?_, fun hr hc => ?_, ?_⟩
  · simp [rollPair, hr, hc]
  · simp [rollPair, hr]
  · simp [rollPair, hr, hc]
  · simp [rollPair, rollInt, hid]

/-- Witness for C4: shift (1, 2) on a concrete 2 × 4 slot state decomposes
into the two single-axis rolls. -/
theorem roll_pair_decomposes_witness :
    rollPair 4 sampleState (1, 2)
      = (rollInt 4 sampleState 1 0).bind fun τ => rollInt 4 τ 2 1 :=
  (roll_pair_decomposes 4 sampleState 1 2).1 (by decide) (by decide)

/-- C5: with a batching-compatible context (17 is prime and ≡ 1 mod 2·4),
`IntMatrixEncoder.__init__` with the valid explicit shape 2 × 2 = degree 4
raises `AttributeError` instead of succeeding — the shape check reads
`self._context` before that attribute is assigned — and the invalid shape
4 × 2 fails with the same `AttributeError`, not the intended shape error.
The modulus preconditions themselves behave as claimed (15 is composite,
19 % 8 ≠ 1, both raise `TypeError`), and a shape-less construction
succeeds. -/
theorem mat_encoder_explicit_shape_attr_error :
    batchingOk ctxBatch = true ∧
    ((2 : ℤ) * 2 = (ctxBatch.polyModDeg : ℤ)) ∧
    intMatrixEncoderInit ctxBatch 2 2 = .error .attributeError ∧
    intMatrixEncoderInit ctxBatch 4 2 = .error .attributeError ∧
    intMatrixEncoderInit (CtxDesc.mk 4 30 15) 0 0 = .error .typeError ∧
    intMatrixEncoderInit (CtxDesc.mk 4 30 19) 0 0 = .error .typeError ∧
    intMatrixEncoderInit ctxBatch 0 0 = .ok (.matE ctxBatch 0 0) :=
  ⟨by decide, by decide, rfl, rfl, rfl, rfl, rfl⟩

/-- C6: a batched encoder starting from the shape-less state (0, 0) locks
`rows`/`cols` to the first encoded matrix's shape, and any later encode whose
shape differs from the locked one raises `TypeError` while the locked shape
stays unchanged. -/
theorem mat_encoder_shape_lock_in (ctx : CtxDesc) (r c : ℕ) (xs : List ℤ)
    (hdeg : 0 < ctx.polyModDeg)
    (h1 : (matEncodeSt ctx 0 0 (.pyMat [r, c] true xs)).1.isOk = true) :
    (matEncodeSt ctx 0 0 (.pyMat [r, c] true xs)).2 = ((r : ℤ), (c : ℤ)) ∧
    ∀ (r' c' : ℕ) (ys : List ℤ), ¬(r' = r ∧ c' = c) →
      matEncodeSt ctx ((r : ℤ)) ((c : ℤ)) (.pyMat [r', c'] true ys)
        = (.error .typeError, ((r : ℤ), (c : ℤ))) := by
  have hrc : (r : ℤ) * c = (ctx.polyModDeg : ℤ) := by
    by_contra hne
    simp [matEncodeSt, hne, Except.isOk, Except.toBool] at h1
  have hr : 0 < r := by
    rcases Nat.eq_zero_or_pos r with h0 | h0
    · subst h0; simp at hrc; omega
    · exact h0
  constructor
  · simp [matEncodeSt, hrc]
  · intro r' c' ys hne
    have hlock : ¬((r : ℤ) ≤ 0 ∧ (c : ℤ) ≤ 0) := by
      push_neg
      intro h
      omega
    have hcmp : ¬((r' : ℤ) = (r : ℤ) ∧ (c' : ℤ) = (c : ℤ)) := by
      intro h
      exact hne ⟨by exact_mod_cast h.1, by exact_mod_cast h.2⟩
    simp only [matEncodeSt]
    rw [if_pos (by simp), if_neg hlock, if_neg (by exact_mod_cast hcmp)]

/-- Witness for C6: a 2 × 2 first encode under the degree-4 context locks
the shape, and a 2 × 1 second encode fails leaving the lock in place. -/
theorem mat_encoder_shape_lock_in_witness :
    matEncodeSt ctxBatch 2 2 (.pyMat [2, 1] true [7, 8])
      = (.error .typeError, (2, 2)) :=
  (mat_encoder_shape_lock_in ctxBatch 2 2 [1, 2, 3, 4] (by decide) rfl).2
    2 1 [7, 8] (by decide)

/-- C7 counterexample: the facade accepts the non-positive plaintext modulus
0 — all four assertions pass and the parameters are handed to the engine —
so construction with a non-positive plaintext modulus does not fail the
facade's validation. -/
theorem scheme_init_accepts_zero_plain_mod :
    cipherSchemeInit 2048 0 0 128
      = .ok ⟨2048, .recommended 128 2048, 0, 128⟩ := rfl

/-- C7 amended: `CipherScheme.__init__` validates that the degree is a power
of two and the security level is 128 or 192, surfacing each assertion failure
as a single `ValueError`; with `coeff_mod ≤ 0` the coefficient modulus comes
from the security-level-keyed recommendation table applied to the degree,
otherwise the explicit value is used; the plaintext modulus is only required
to be an `int` — its positivity is not validated. -/
theorem scheme_init_validation (d p c s : ℤ) :
    (¬(s = 128 ∨ s = 192) → cipherSchemeInit d p c s = .error .valueError) ∧
    ((s = 128 ∨ s = 192) → is_pow_of_two d = false →
      cipherSchemeInit d p c s = .error .valueError) ∧
    ((s = 128 ∨ s = 192) → is_pow_of_two d = true → c ≤ 0 →
      cipherSchemeInit d p c s = .ok ⟨d, .recommended s d, p, s⟩) ∧
    ((s = 128 ∨ s = 192) → is_pow_of_two d = true → 0 < c →
      cipherSchemeInit d p c s = .ok ⟨d, .explicitMod c, p, s⟩) := by
  refine ⟨fun h => ?_, fun hs hd => ?_, fun hs hd hc => ?_, fun hs hd hc => ?_⟩
  · simp [cipherSchemeInit, h]
  · simp [cipherSchemeInit, hs, hd]
  · simp [cipherSchemeInit, hs, hd, hc]
  · simp [cipherSchemeInit, hs, hd, not_le.mpr hc]

/-- Witness for C7 at a concrete input: degree 16, security 128, derived
coefficient modulus, negative plaintext modulus accepted. -/
theorem scheme_init_validation_witness :
    cipherSchemeInit 16 (-3) 0 128 = .ok ⟨16, .recommended 128 16, -3, 128⟩ :=
  (scheme_init_validation 16 (-3) 0 128).2.2.1 (Or.inl rfl) (by decide) (by decide)

/-- C8: multiplying by the plaintext `int` 0 is rejected (CPython interns
small ints, so `other is 0` holds), but multiplying by a caller-supplied
float 0.0 is *not* rejected: `other is 0.0` compares object identity with
the module's own constant and is false, so the guard passes, `0.0` is
encodable, and the plaintext-multiplication primitive runs, producing a
ciphertext. A non-zero encodable plaintext also multiplies. -/
theorem mul_float_zero_not_rejected :
    cipherMul cF (.plain (.pyInt 0)) = .error .typeError ∧
    canEncode cF.enc (.pyFloat 0) = true ∧
    cipherMul cF (.plain (.pyFloat 0)) =
      .ok ⟨.mulP cF.expr (.fracPoly 819 819 2 0), cF.enc⟩ ∧
    cipherMul cF (.plain (.pyFloat 2)) =
      .ok ⟨.mulP cF.expr (.fracPoly 819 819 2 2), cF.enc⟩ :=
  ⟨rfl, rfl, rfl, rfl⟩

/-- C9: `generate_keys` asserts the decomposition bit count lies within the
engine bounds and the key count is positive; on success it always returns
public, secret and evaluation keys; a rotation-key failure that is a
`RuntimeError` with exactly the not-valid-for-batching message degrades to
`gk = none`, and every other rotation-key failure propagates unchanged. -/
theorem generate_keys_spec (dbc ek : ℤ) (g : Except PyErr Unit) :
    (¬(dbcMin ≤ dbc ∧ dbc ≤ dbcMax) →
      generateKeys dbc ek g = .error .assertionError) ∧
    (dbcMin ≤ dbc → dbc ≤ dbcMax → ek ≤ 0 →
      generateKeys dbc ek g = .error .assertionError) ∧
    (dbcMin ≤ dbc → dbc ≤ dbcMax → 0 < ek →
      (g = .ok () → generateKeys dbc ek g = .ok ⟨(), (), (), some ()⟩) ∧
      generateKeys dbc ek (.error (.runtimeError batchingMsg))
        = .ok ⟨(), (), (), none⟩ ∧
      (∀ msg, msg ≠ batchingMsg →
        generateKeys dbc ek (.error (.runtimeError msg))
          = .error (.runtimeError msg)) ∧
      (∀ e : PyErr, (∀ msg, e ≠ .runtimeError msg) →
        generateKeys dbc ek (.error e) = .error e)) := by
  refine ⟨fun h => ?_, fun h1 h2 h3 => ?_, fun h1 h2 h3 => ?_⟩
  · simp [generateKeys, h]
  · simp [generateKeys, h1, h2]
    omega
  · refine ⟨fun hg => ?_, ?_, fun msg hm => ?_, fun e he => ?_⟩
    · subst hg
      simp [generateKeys, h1, h2, h3]
    · simp [generateKeys, h1, h2, h3]
    · simp [generateKeys, h1, h2, h3, hm]
    · cases e <;> simp [generateKeys, h1, h2, h3]
      exact absurd rfl (he _)

/-- Witness for C9: in-bounds inputs with a successful, a
batching-incompatible, and an unrelated rotation-key outcome. -/
theorem generate_keys_spec_witness :
    generateKeys 16 1 (.ok ()) = .ok ⟨(), (), (), some ()⟩ ∧
    generateKeys 16 1 (.error (.runtimeError batchingMsg))
      = .ok ⟨(), (), (), none⟩ ∧
    generateKeys 16 1 (.error (.runtimeError "invalid dbc"))
      = .error (.runtimeError "invalid dbc") :=
  ⟨((generate_keys_spec 16 1 (.ok ())).2.2 (by decide) (by decide) (by decide)).1 rfl,
   ((generate_keys_spec 16 1 (.ok ())).2.2 (by decide) (by decide) (by decide)).2.1,
   ((generate_keys_spec 16 1 (.ok ())).2.2 (by decide) (by decide) (by decide)).2.2.1
     "invalid dbc" (by decide)⟩

/-- C10: an accepted single-axis row roll calls the engine's
`rotate_columns` without the shift, so shifts -1, 0 and 1 all produce the
same rotated state; in particular the shift-0 row roll is not the identity —
it swaps the slot rows of any state whose rows differ. -/
theorem roll_axis0_ignores_shift (m : ℕ) (σ : BState m) :
    rollInt m σ (-1) 0 = .ok (rotateColumns m σ) ∧
    rollInt m σ 0 0 = .ok (rotateColumns m σ) ∧
    rollInt m σ 1 0 = .ok (rotateColumns m σ) ∧
    (∃ τ : BState 4, rollInt 4 τ 0 0 ≠ .ok τ) := by
  refine ⟨by simp [rollInt], by simp [rollInt], by simp [rollInt], ?_⟩
  refine ⟨sampleState, fun h => ?_⟩
  have h2 : rotateColumns 4 sampleState = sampleState := by
    simpa [rollInt] using h
  have h3 := congrFun (congrFun h2 false) 0
  simp [rotateColumns, sampleState] at h3
